import Mathlib

/-!
# Verification of the auth ceremony / token state machine

Shallow embedding of the server's authentication core
(`src/server/src/auth/{models,repository,handlers}.rs`) and proofs of the
specified properties.

Modelling conventions:
* `Uuid` and timestamps are `Nat`; `time::OffsetDateTime::now_utc()` becomes an
  explicit `now : Nat` argument threaded to the functions that call it.
* The relational store is a `Db` value holding the three tables as lists;
  SQL statements are translated row by row (`UPDATE ... WHERE` is a `map`
  guarded by the `WHERE` predicate, `rows_affected` a `countP`, etc.).
* The external webauthn engine (`webauthn_rs`) is a collaborator: each handler
  takes the outcome of its engine call as an explicit argument
  (`Except Unit _`), since the core never inspects challenge bytes.
* sqlx store errors are injected through a `Faults` record: a flag per
  repository call-site decides whether that call returns `Err` (the handlers'
  `map_err(|_| DatabaseError)` branches).  `noFaults` is the error-free run.
* A stored credential row's serialized JSON and its serde deserialization
  outcome are modelled together as `credential_data : Option Passkey`
  (`some pk` iff `serde_json::from_str::<Passkey>` succeeds).
-/

namespace WildAuth

/-- `UserRole` from `models.rs`: `Admin` or `Member`. -/
inductive UserRole where
  | admin
  | member
deriving DecidableEq, Repr

/-- `User` from `models.rs` (`created_at` as `Nat`). -/
structure User where
  id : Nat
  username : String
  role : UserRole
  created_at : Nat
  invite_code_used : Option String
deriving DecidableEq, Repr

/-- `InviteCode` from `models.rs`. -/
structure InviteCode where
  id : Nat
  code : String
  created_at : Nat
  used_at : Option Nat
  used_by_user_id : Option Nat
  is_active : Bool
  code_type : String
  link_for_user_id : Option Nat
  link_expires_at : Option Nat
deriving DecidableEq, Repr

namespace InviteCode

/-- `InviteCode::is_account_link_code`. -/
def is_account_link_code (c : InviteCode) : Bool :=
  c.code_type == "account-link"

/-- `InviteCode::is_invite_code`. -/
def is_invite_code (c : InviteCode) : Bool :=
  c.code_type == "invite"

/-- `InviteCode::is_expired`, with `now_utc()` passed explicitly. -/
def is_expired (now : Nat) (c : InviteCode) : Bool :=
  match c.link_expires_at with
  | some expires_at => decide (now > expires_at)
  | none => false

/-- `InviteCode::is_valid_for_use`: active, not used, not expired. -/
def is_valid_for_use (now : Nat) (c : InviteCode) : Bool :=
  c.is_active && c.used_at.isNone && !(is_expired now c)

/-- `InviteCode::get_target_user_id`. -/
def get_target_user_id (c : InviteCode) : Option Nat :=
  if c.is_account_link_code then c.link_for_user_id else none

end InviteCode

/-- The opaque engine-produced public-key credential (`webauthn_rs` `Passkey`),
reduced to the two pieces the core reads or writes through the engine API:
its credential id and the signature counter. -/
structure Passkey where
  cred_id : Nat
  counter : Nat
deriving DecidableEq, Repr

/-- The engine's authentication result (`AuthenticationResult`): which
credential was used and its new counter value. -/
structure AuthResult where
  cred_id : Nat
  counter : Nat
deriving DecidableEq, Repr

/-- `Passkey::update_credential(&auth_result)`: engine-managed counter update
(external collaborator; updates the matching credential to the newer counter). -/
def Passkey.update_credential (ar : AuthResult) (pk : Passkey) : Passkey :=
  if pk.cred_id == ar.cred_id && ar.counter > pk.counter then
    { pk with counter := ar.counter }
  else pk

/-- One row of the `webauthn_credentials` table.  `credential_data` holds the
serialized passkey together with its serde outcome: `none` models a stored
string that fails to deserialize. -/
structure CredRecord where
  user_id : Nat
  credential_id : Nat
  credential_data : Option Passkey
  created_at : Nat
  last_used_at : Option Nat
deriving DecidableEq, Repr

/-- The durable store: the three tables touched by the auth core. -/
structure Db where
  invite_codes : List InviteCode
  users : List User
  credentials : List CredRecord
deriving DecidableEq, Repr

/-- `AuthError` from `models.rs` (constructors reachable from the embedded
operations). -/
inductive AuthError where
  | userNotFound
  | invalidInviteCode
  | database
deriving DecidableEq, Repr

/-- `WebauthnError` from `error.rs` (constructors reachable from the embedded
handlers). -/
inductive WebauthnError where
  | unknown
  | corruptSession
  | userNotFound
  | userHasNoCredentials
  | invalidInviteCode
  | userAlreadyExists
  | databaseError
  | badRequest
deriving DecidableEq, Repr

/-- Store-error injection: one flag per fallible sqlx call-site.  A `true`
flag makes the corresponding repository call return `Err`, modelling the
driver-level failures the handlers map to `DatabaseError`. -/
structure Faults where
  get_invite_code_fails : Bool
  get_user_by_id_fails : Bool
  get_user_by_username_fails : Bool
  get_user_credentials_fails : Bool
  list_users_fails : Bool
  create_user_fails : Bool
  save_credential_fails : Bool
  use_invite_code_fails : Bool
  update_credential_fails : Nat → Bool

/-- The error-free execution: no store call fails. -/
def noFaults : Faults :=
  ⟨false, false, false, false, false, false, false, false, fun _ => false⟩

/-- `AuthRepository::get_invite_code`: `SELECT ... WHERE code = $1`,
`fetch_optional`. -/
def get_invite_code (db : Db) (code : String) : Option InviteCode :=
  db.invite_codes.find? (fun c => c.code == code)

/-- The `WHERE` predicate of `use_invite_code`:
`code = $1 AND is_active = TRUE AND used_at IS NULL`. -/
def useInviteCodeMatches (code : String) (c : InviteCode) : Bool :=
  c.code == code && c.is_active && c.used_at.isNone

/-- `AuthRepository::use_invite_code`:
`UPDATE invite_codes SET used_at = NOW(), used_by_user_id = $2
 WHERE code = $1 AND is_active = TRUE AND used_at IS NULL`,
returning `rows_affected() > 0`.  Note the SQL neither checks expiry nor
clears `is_active`. -/
def use_invite_code (now : Nat) (db : Db) (code : String) (user_id : Nat) :
    Bool × Db :=
  let affected := db.invite_codes.countP (fun c => useInviteCodeMatches code c)
  let codes := db.invite_codes.map (fun c =>
    if useInviteCodeMatches code c then
      { c with used_at := some now, used_by_user_id := some user_id }
    else c)
  (decide (affected > 0), { db with invite_codes := codes })

/-- `AuthRepository::get_user_by_id`. -/
def get_user_by_id (db : Db) (user_id : Nat) : Option User :=
  db.users.find? (fun u => u.id == user_id)

/-- `AuthRepository::get_user_by_username`. -/
def get_user_by_username (db : Db) (username : String) : Option User :=
  db.users.find? (fun u => u.username == username)

/-- `AuthRepository::list_users` (`ORDER BY created_at DESC` does not matter
to the core, which only asks `is_empty`; rows are kept in insertion order). -/
def list_users (db : Db) : List User :=
  db.users

/-- `AuthRepository::create_user_with_role`: `INSERT INTO users ... RETURNING`.
The store generates the fresh id (`fresh_id`); the unique constraint on
`username` makes a duplicate insert fail as a store error. -/
def create_user_with_role (f : Faults) (now fresh_id : Nat) (db : Db)
    (username : String) (invite_code : Option String) (role : UserRole) :
    Except AuthError User × Db :=
  if f.create_user_fails then (.error .database, db)
  else if db.users.any (fun u => u.username == username) then
    (.error .database, db)
  else
    let user : User :=
      { id := fresh_id, username := username, role := role,
        created_at := now, invite_code_used := invite_code }
    (.ok user, { db with users := db.users ++ [user] })

/-- `AuthRepository::save_credential`:
`INSERT ... ON CONFLICT (credential_id) DO UPDATE SET credential_data = $3,
last_used_at = NOW()`. -/
def save_credential (now : Nat) (db : Db) (user_id : Nat) (pk : Passkey) : Db :=
  if db.credentials.any (fun r => r.credential_id == pk.cred_id) then
    { db with credentials := db.credentials.map (fun r =>
        if r.credential_id == pk.cred_id then
          { r with credential_data := some pk, last_used_at := some now }
        else r) }
  else
    { db with credentials := db.credentials ++
        [{ user_id := user_id, credential_id := pk.cred_id,
           credential_data := some pk, created_at := now,
           last_used_at := none }] }

/-- `AuthRepository::get_user_credentials`: select the user's rows and keep
those whose `credential_data` deserializes; a row that fails to deserialize is
logged and skipped, never an error. -/
def get_user_credentials (db : Db) (user_id : Nat) : List Passkey :=
  ((db.credentials.filter (fun r => r.user_id == user_id)).map
    (fun r => r.credential_data)).reduceOption

/-- `AuthRepository::update_credential`:
`UPDATE webauthn_credentials SET credential_data = $3, last_used_at = NOW()
 WHERE user_id = $1 AND credential_id = $2`. -/
def update_credential (now : Nat) (db : Db) (user_id : Nat) (pk : Passkey) : Db :=
  { db with credentials := db.credentials.map (fun r =>
      if r.user_id == user_id && r.credential_id == pk.cred_id then
        { r with credential_data := some pk, last_used_at := some now }
      else r) }

/-- `AuthRepository::link_credential_to_user` (`repository.rs:94-131`):
validate the account-link code, save the credential for the target user, then
mark the code used.  Every fallible store call propagates its error with `?`;
in particular a store error from `use_invite_code` aborts with `Err` even
though the credential is already saved, while its `bool` result is discarded. -/
def link_credential_to_user (f : Faults) (now : Nat) (db : Db)
    (account_link_code : String) (credential : Passkey) :
    Except AuthError User × Db :=
  if f.get_invite_code_fails then (.error .database, db)
  else
    match get_invite_code db account_link_code with
    | none => (.error .invalidInviteCode, db)
    | some invite_code =>
      if !invite_code.is_account_link_code then (.error .invalidInviteCode, db)
      else if !(invite_code.is_valid_for_use now) then
        (.error .invalidInviteCode, db)
      else
        match invite_code.get_target_user_id with
        | none => (.error .invalidInviteCode, db)
        | some target_user_id =>
          if f.get_user_by_id_fails then (.error .database, db)
          else
            match get_user_by_id db target_user_id with
            | none => (.error .userNotFound, db)
            | some user =>
              if f.save_credential_fails then (.error .database, db)
              else
                let db1 := save_credential now db target_user_id credential
                if f.use_invite_code_fails then (.error .database, db1)
                else
                  let r := use_invite_code now db1 account_link_code
                    target_user_id
                  (.ok user, r.2)

/-- The tuple stored under the session's `"reg_state"` key by `start_register`:
`(username, user_unique_id, reg_state, invite_code, is_account_linking)`;
`reg_state` is the engine's opaque `PasskeyRegistration`, modelled as `Nat`. -/
structure RegPending where
  username : String
  user_unique_id : Nat
  reg_state : Nat
  invite_code : Option String
  is_account_linking : Bool
deriving DecidableEq, Repr

/-- The tuple stored under the session's `"auth_state"` key by
`start_authentication`: `(user.id, auth_state)`; `auth_state` is the engine's
opaque `PasskeyAuthentication`, modelled as `Nat`. -/
structure AuthPending where
  user_id : Nat
  auth_state : Nat
deriving DecidableEq, Repr

/-- The `tower_sessions` session as the handlers use it: the three keys
`"reg_state"`, `"auth_state"` and `"user_id"` (absent = `none`). -/
structure SessionState where
  reg_state : Option RegPending
  auth_state : Option AuthPending
  user_id : Option Nat
deriving DecidableEq, Repr

/-- `RegistrationResponse` from `handlers.rs`. -/
structure RegistrationResponse where
  success : Bool
  operation_type : String
  message : String
deriving DecidableEq, Repr

/-- The two `Json(RegistrationResponse { .. })` bodies of `finish_register`. -/
def accountLinkResponse : RegistrationResponse :=
  { success := true, operation_type := "account_link",
    message := "Successfully added new passkey to your existing account!" }

def newRegistrationResponse : RegistrationResponse :=
  { success := true, operation_type := "new_registration",
    message := "Successfully registered new account!" }

/-- The invite-code validation block of `start_register`
(`handlers.rs:77-129`): both arms run the same lookup + `is_valid_for_use`
check on a provided code; when codes are required a missing code is
`InvalidInviteCode`, otherwise a missing code resolves to `none`. -/
def resolveInviteCode (invite_codes_required : Bool) (f : Faults) (now : Nat)
    (db : Db) (param : Option String) :
    Except WebauthnError (Option InviteCode) :=
  let validate := fun (s : String) =>
    if f.get_invite_code_fails then .error WebauthnError.databaseError
    else
      match get_invite_code db s with
      | some code =>
        if code.is_valid_for_use now then .ok (some code)
        else .error WebauthnError.invalidInviteCode
      | none => .error WebauthnError.invalidInviteCode
  match param with
  | some s => validate s
  | none =>
    if invite_codes_required then .error WebauthnError.invalidInviteCode
    else .ok none

/-- `start_register` (`handlers.rs:66-234`).  `engine` is the outcome of
`webauthn.start_passkey_registration` — `(ccr, reg_state)` on success —
and `fresh_uuid` the value of `Uuid::new_v4()`.  Returns the response
(challenge on success) and the session; the store is only read.  The
`"reg_state"` removal happens only after token/username resolution, so
resolution failures leave the session untouched, while an engine failure
leaves `"reg_state"` removed. -/
def start_register (invite_codes_required : Bool) (f : Faults)
    (engine : Except Unit (Nat × Nat)) (now fresh_uuid : Nat)
    (sess : SessionState) (db : Db) (username : String)
    (params_invite_code : Option String) :
    Except WebauthnError Nat × SessionState :=
  match resolveInviteCode invite_codes_required f now db params_invite_code with
  | .error e => (.error e, sess)
  | .ok invite_code =>
    let resolved : Except WebauthnError (Nat × Bool) :=
      match invite_code with
      | some code =>
        if code.is_account_link_code then
          match code.get_target_user_id with
          | none => .error .invalidInviteCode
          | some target_user_id =>
            if f.get_user_by_id_fails then .error .databaseError
            else
              match get_user_by_id db target_user_id with
              | none => .error .userNotFound
              | some target_user =>
                if target_user.username != username then
                  .error .invalidInviteCode
                else .ok (target_user_id, true)
        else
          if f.get_user_by_username_fails then .error .databaseError
          else if (get_user_by_username db username).isSome then
            .error .userAlreadyExists
          else .ok (fresh_uuid, false)
      | none =>
        if f.get_user_by_username_fails then .error .databaseError
        else if (get_user_by_username db username).isSome then
          .error .userAlreadyExists
        else .ok (fresh_uuid, false)
    match resolved with
    | .error e => (.error e, sess)
    | .ok (user_unique_id, is_account_linking) =>
      let sess1 : SessionState := { sess with reg_state := none }
      if f.get_user_credentials_fails then (.error .databaseError, sess1)
      else
        let _exclude_credentials :=
          (get_user_credentials db user_unique_id).map (fun sk => sk.cred_id)
        match engine with
        | .ok (ccr, reg_state) =>
          let pending : RegPending :=
            { username := username, user_unique_id := user_unique_id,
              reg_state := reg_state,
              invite_code := invite_code.map (fun c => c.code),
              is_account_linking := is_account_linking }
          (.ok ccr, { sess1 with reg_state := some pending })
        | .error _ => (.error .unknown, sess1)

/-- `finish_register` (`handlers.rs:240-377`).  `engine` is the outcome of
`webauthn.finish_passkey_registration`; `fresh_uuid` the id the store mints
for a newly inserted user.  The pending `"reg_state"` is taken from the
session before the engine verification, on every path. -/
def finish_register (f : Faults) (engine : Except Unit Passkey)
    (now fresh_uuid : Nat) (sess : SessionState) (db : Db) :
    Except WebauthnError RegistrationResponse × SessionState × Db :=
  match sess.reg_state with
  | none => (.error .corruptSession, sess, db)
  | some pending =>
    let sess1 : SessionState := { sess with reg_state := none }
    match engine with
    | .error _ => (.error .badRequest, sess1, db)
    | .ok sk =>
      if pending.is_account_linking then
        match pending.invite_code with
        | some code =>
          match link_credential_to_user f now db code sk with
          | (.ok user, db1) =>
            (.ok accountLinkResponse,
             { sess1 with user_id := some user.id }, db1)
          | (.error _, db1) => (.error .databaseError, sess1, db1)
        | none => (.error .corruptSession, sess1, db)
      else
        let is_first_user :=
          if f.list_users_fails then false else (list_users db).isEmpty
        let role := if is_first_user then UserRole.admin else UserRole.member
        match create_user_with_role f now fresh_uuid db pending.username
          pending.invite_code role with
        | (.error _, db1) => (.error .databaseError, sess1, db1)
        | (.ok user, db1) =>
          if f.save_credential_fails then (.error .databaseError, sess1, db1)
          else
            let db2 := save_credential now db1 user.id sk
            let db3 :=
              match pending.invite_code with
              | some code =>
                if f.use_invite_code_fails then db2
                else (use_invite_code now db2 code user.id).2
              | none => db2
            (.ok newRegistrationResponse,
             { sess1 with user_id := some user.id }, db3)

/-- `start_authentication` (`handlers.rs:408-456`).  `engine` is the outcome
of `webauthn.start_passkey_authentication` — `(rcr, auth_state)` on success.
The stale `"auth_state"` is removed from the session first, before the user
lookup. -/
def start_authentication (f : Faults) (engine : Except Unit (Nat × Nat))
    (sess : SessionState) (db : Db) (username : String) :
    Except WebauthnError Nat × SessionState :=
  let sess1 : SessionState := { sess with auth_state := none }
  if f.get_user_by_username_fails then (.error .databaseError, sess1)
  else
    match get_user_by_username db username with
    | none => (.error .userNotFound, sess1)
    | some user =>
      if f.get_user_credentials_fails then (.error .databaseError, sess1)
      else
        let allow_credentials := get_user_credentials db user.id
        if allow_credentials.isEmpty then
          (.error .userHasNoCredentials, sess1)
        else
          match engine with
          | .ok (rcr, auth_state) =>
            let pending : AuthPending :=
              { user_id := user.id, auth_state := auth_state }
            (.ok rcr, { sess1 with auth_state := some pending })
          | .error _ => (.error .unknown, sess1)

/-- `logout` (`handlers.rs:463-471`): remove `"user_id"`, `"auth_state"` and
`"reg_state"` from the session and answer `200 OK`. -/
def logout (sess : SessionState) : Nat × SessionState :=
  (200, { sess with user_id := none, auth_state := none, reg_state := none })

/-- `finish_authentication` (`handlers.rs:485-539`).  `engine` is the outcome
of `webauthn.finish_passkey_authentication`.  The pending `"auth_state"` is
taken before verification; an engine failure answers `Ok(400)` (not `Err`);
on success each credential is updated from the engine result and persisted,
a per-credential persistence failure (`f.update_credential_fails`) being
logged and skipped. -/
def finish_authentication (f : Faults) (engine : Except Unit AuthResult)
    (now : Nat) (sess : SessionState) (db : Db) :
    Except WebauthnError Nat × SessionState × Db :=
  match sess.auth_state with
  | none => (.error .corruptSession, sess, db)
  | some pending =>
    let sess1 : SessionState := { sess with auth_state := none }
    match engine with
    | .error _ => (.ok 400, sess1, db)
    | .ok auth_result =>
      if f.get_user_credentials_fails then (.error .databaseError, sess1, db)
      else
        let credentials := get_user_credentials db pending.user_id
        if credentials.isEmpty then
          (.error .userHasNoCredentials, sess1, db)
        else
          let db1 := credentials.foldl (fun d sk =>
            let sk1 := Passkey.update_credential auth_result sk
            if f.update_credential_fails sk1.cred_id then d
            else update_credential now d pending.user_id sk1) db
          (.ok 200, { sess1 with user_id := some pending.user_id }, db1)

/-- One call to an auth handler, with the per-call inputs (engine outcomes,
clock, minted ids, request data).  Used to talk about sequential executions of
the auth core. -/
inductive AuthOp where
  | startRegister (invite_codes_required : Bool) (engine : Except Unit (Nat × Nat))
      (now fresh_uuid : Nat) (username : String) (params_invite_code : Option String)
  | finishRegister (engine : Except Unit Passkey) (now fresh_uuid : Nat)
  | startAuthentication (engine : Except Unit (Nat × Nat)) (username : String)
  | finishAuthentication (engine : Except Unit AuthResult) (now : Nat)
  | logoutOp

/-- Apply one handler call to the session/store pair, with no store errors
(`noFaults`); responses are discarded, only the state transition is kept. -/
def applyOp (op : AuthOp) (s : SessionState × Db) : SessionState × Db :=
  match op with
  | .startRegister req e now fid u p =>
    ((start_register req noFaults e now fid s.1 s.2 u p).2, s.2)
  | .finishRegister e now fid =>
    let r := finish_register noFaults e now fid s.1 s.2
    (r.2.1, r.2.2)
  | .startAuthentication e u =>
    ((start_authentication noFaults e s.1 s.2 u).2, s.2)
  | .finishAuthentication e now =>
    let r := finish_authentication noFaults e now s.1 s.2
    (r.2.1, r.2.2)
  | .logoutOp => ((logout s.1).2, s.2)

/-- Run a sequence of handler calls. -/
def runOps (ops : List AuthOp) (s : SessionState × Db) : SessionState × Db :=
  ops.foldl (fun s op => applyOp op s) s

/-- The admin-bootstrap shape of the users table: either no identity yet, or
the first identity created is an `admin` and all the others are `member`s. -/
def adminFirst (us : List User) : Bool :=
  match us with
  | [] => true
  | u :: rest => u.role == UserRole.admin &&
      rest.all (fun v => v.role == UserRole.member)

/-! ### Concrete fixtures for counterexamples and witnesses -/

/-- An account-link token that is active and unused but expired
(`link_expires_at = 10`). -/
def expiredLinkCode : InviteCode :=
  { id := 1, code := "LINKCODE", created_at := 0, used_at := none,
    used_by_user_id := none, is_active := true, code_type := "account-link",
    link_for_user_id := some 7, link_expires_at := some 10 }

def dbExpiredLink : Db :=
  { invite_codes := [expiredLinkCode], users := [], credentials := [] }

/-- A plain invite token, active and unused. -/
def plainInvite : InviteCode :=
  { id := 2, code := "INVITE12", created_at := 0, used_at := none,
    used_by_user_id := none, is_active := true, code_type := "invite",
    link_for_user_id := none, link_expires_at := none }

def dbPlainInvite : Db :=
  { invite_codes := [plainInvite], users := [], credentials := [] }

/-- An existing member account. -/
def bobUser : User :=
  { id := 7, username := "bob", role := .member, created_at := 0,
    invite_code_used := none }

/-- A live (active, unused, unexpired at `now = 50`) account-link token for
`bobUser`. -/
def bobLinkCode : InviteCode :=
  { id := 3, code := "BOBLINK1", created_at := 0, used_at := none,
    used_by_user_id := none, is_active := true, code_type := "account-link",
    link_for_user_id := some 7, link_expires_at := some 100 }

def dbBobLink : Db :=
  { invite_codes := [bobLinkCode], users := [bobUser], credentials := [] }

def emptySession : SessionState :=
  { reg_state := none, auth_state := none, user_id := none }

def emptyDb : Db := { invite_codes := [], users := [], credentials := [] }

/-- A session holding a pending authentication ceremony. -/
def sessPendingAuth : SessionState :=
  { reg_state := none, auth_state := some { user_id := 5, auth_state := 7 },
    user_id := none }

/-- A session holding the pending account-link registration for `bobUser`. -/
def sessBobLink : SessionState :=
  { reg_state := some
      { username := "bob", user_unique_id := 7, reg_state := 0,
        invite_code := some "BOBLINK1", is_account_linking := true },
    auth_state := none, user_id := none }

/-- Error-free store except that `use_invite_code` reports a driver error. -/
def faultConsume : Faults := { noFaults with use_invite_code_fails := true }

/-- Error-free store except that every `update_credential` call fails. -/
def faultUpdate : Faults :=
  { noFaults with update_credential_fails := fun _ => true }

def pkC7 : Passkey := { cred_id := 42, counter := 0 }

/-- One stored, well-formed credential row for user 5. -/
def credRec5 : CredRecord :=
  { user_id := 5, credential_id := 42,
    credential_data := some { cred_id := 42, counter := 3 },
    created_at := 0, last_used_at := none }

def dbCred5 : Db := { invite_codes := [], users := [], credentials := [credRec5] }

def sessPendAuth5 : SessionState :=
  { reg_state := none, auth_state := some { user_id := 5, auth_state := 9 },
    user_id := none }

/-- A stored credential row whose serialized data does not deserialize. -/
def corruptRec : CredRecord :=
  { user_id := 5, credential_id := 43, credential_data := none,
    created_at := 0, last_used_at := none }

def aliceUser : User :=
  { id := 5, username := "alice", role := .admin, created_at := 0,
    invite_code_used := none }

/-- A user whose only stored credential rows are corrupted. -/
def dbAllCorrupt : Db :=
  { invite_codes := [], users := [aliceUser], credentials := [corruptRec] }

/-- A store where `aliceUser` owns one well-formed credential. -/
def dbAliceCred : Db :=
  { invite_codes := [], users := [aliceUser], credentials := [credRec5] }

/-- A token-free bootstrap run: register "alice", then register "bob". -/
def bootstrapOps : List AuthOp :=
  [ .startRegister false (.ok (1, 10)) 0 100 "alice" none,
    .finishRegister (.ok { cred_id := 201, counter := 0 }) 1 100,
    .startRegister false (.ok (2, 20)) 2 101 "bob" none,
    .finishRegister (.ok { cred_id := 202, counter := 0 }) 3 101 ]

/-! ### Helper lemmas -/

lemma finish_register_of_none (f : Faults) (e : Except Unit Passkey)
    (now fid : Nat) (sess : SessionState) (db : Db)
    (h : sess.reg_state = none) :
    finish_register f e now fid sess db = (.error .corruptSession, sess, db) := by
  simp [finish_register, h]

lemma finish_register_reg_state_none (f : Faults) (e : Except Unit Passkey)
    (now fid : Nat) (sess : SessionState) (db : Db) :
    ((finish_register f e now fid sess db).2.1).reg_state = none := by
  unfold finish_register
  cases h : sess.reg_state with
  | none => simp [h]
  | some p =>
    simp only [h]
    repeat' split
    all_goals rfl

lemma finish_authentication_of_none (f : Faults) (e : Except Unit AuthResult)
    (now : Nat) (sess : SessionState) (db : Db)
    (h : sess.auth_state = none) :
    finish_authentication f e now sess db = (.error .corruptSession, sess, db) := by
  simp [finish_authentication, h]

lemma finish_authentication_auth_state_none (f : Faults)
    (e : Except Unit AuthResult) (now : Nat) (sess : SessionState) (db : Db) :
    ((finish_authentication f e now sess db).2.1).auth_state = none := by
  unfold finish_authentication
  cases h : sess.auth_state with
  | none => simp [h]
  | some p =>
    simp only [h]
    repeat' split
    all_goals rfl

/-! ### C1 -/

/-- C1: the pending ceremony is taken from the session before engine
verification, so a second `finish_register` (resp. `finish_authentication`)
on the session produced by a first finish — whatever its faults, engine
outcome or store — always answers `CorruptSession`. -/
theorem second_finish_always_corrupt_session
    (f1 f2 g1 g2 : Faults) (e1 e2 : Except Unit Passkey)
    (a1 a2 : Except Unit AuthResult) (n1 n2 n3 n4 i1 i2 : Nat)
    (sessR sessA : SessionState) (dbR dbR2 dbA dbA2 : Db) :
    (finish_register f2 e2 n2 i2
        ((finish_register f1 e1 n1 i1 sessR dbR).2.1) dbR2).1
      = .error .corruptSession
    ∧ (finish_authentication g2 a2 n4
        ((finish_authentication g1 a1 n3 sessA dbA).2.1) dbA2).1
      = .error .corruptSession := by
  constructor
  · rw [finish_register_of_none f2 e2 n2 i2 _ dbR2
      (finish_register_reg_state_none f1 e1 n1 i1 sessR dbR)]
  · rw [finish_authentication_of_none g2 a2 n4 _ dbA2
      (finish_authentication_auth_state_none g1 a1 n3 sessA dbA)]

/-! ### C10 -/

/-- C10: `logout` clears the authenticated user id and both pending-ceremony
slots and answers `200`; on the resulting session any `finish_register` or
`finish_authentication` fails `CorruptSession`. -/
theorem logout_clears_session_and_blocks_finish
    (sess : SessionState) (f g : Faults) (e : Except Unit Passkey)
    (a : Except Unit AuthResult) (now fid now2 : Nat) (db db2 : Db) :
    logout sess =
      (200, { reg_state := none, auth_state := none, user_id := none })
    ∧ (finish_register f e now fid (logout sess).2 db).1
        = .error .corruptSession
    ∧ (finish_authentication g a now2 (logout sess).2 db2).1
        = .error .corruptSession := by
  refine ⟨rfl, ?_, ?_⟩
  · rw [finish_register_of_none f e now fid _ db rfl]
  · rw [finish_authentication_of_none g a now2 _ db2 rfl]

/-! ### C8 -/

/-- C8: once engine verification succeeded and the identity's credential set
is non-empty, `finish_authentication` answers `200` and marks the session
authenticated, whatever the per-credential persistence faults
(`f.update_credential_fails` is arbitrary). -/
theorem auth_counter_persistence_best_effort
    (f : Faults) (ar : AuthResult) (now : Nat) (sess : SessionState) (db : Db)
    (p : AuthPending)
    (hp : sess.auth_state = some p)
    (hf : f.get_user_credentials_fails = false)
    (hne : get_user_credentials db p.user_id ≠ []) :
    (finish_authentication f (.ok ar) now sess db).1 = .ok 200
    ∧ (finish_authentication f (.ok ar) now sess db).2.1.user_id
        = some p.user_id
    ∧ (finish_authentication f (.ok ar) now sess db).2.1.auth_state = none := by
  have hE : (get_user_credentials db p.user_id).isEmpty = false := by
    simpa [List.isEmpty_eq_false] using hne
  simp [finish_authentication, hp, hf, hE]

theorem auth_counter_persistence_best_effort_witness :
    sessPendAuth5.auth_state = some { user_id := 5, auth_state := 9 }
    ∧ faultUpdate.get_user_credentials_fails = false
    ∧ get_user_credentials dbCred5 5 ≠ []
    ∧ (finish_authentication faultUpdate (.ok { cred_id := 42, counter := 9 })
        60 sessPendAuth5 dbCred5).1 = .ok 200 := by
  refine ⟨rfl, rfl, by decide, ?_⟩
  exact (auth_counter_persistence_best_effort faultUpdate
    { cred_id := 42, counter := 9 } 60 sessPendAuth5 dbCred5
    { user_id := 5, auth_state := 9 } rfl rfl (by decide)).1

/-! ### C9 -/

lemma get_user_credentials_all_corrupt_aux (uid : Nat) (l : List CredRecord)
    (h : ∀ rec ∈ l, rec.user_id = uid → rec.credential_data = none) :
    ((l.filter (fun r => r.user_id == uid)).map
      (fun r => r.credential_data)).reduceOption = [] := by
  induction l with
  | nil => rfl
  | cons r t ih =>
    rw [List.filter_cons]
    by_cases hr : r.user_id = uid
    · have hd : r.credential_data = none := h r (List.mem_cons_self r t) hr
      have hb : (r.user_id == uid) = true := by simpa using hr
      simp only [hb, if_true, List.map_cons, hd,
        List.reduceOption_cons_of_none]
      exact ih (fun rec hm hu => h rec (List.mem_cons_of_mem r hm) hu)
    · have hb : (r.user_id == uid) = false := by simpa using hr
      simp only [hb, if_false]
      exact ih (fun rec hm hu => h rec (List.mem_cons_of_mem r hm) hu)

lemma get_user_credentials_all_corrupt (db : Db) (uid : Nat)
    (h : ∀ rec ∈ db.credentials, rec.user_id = uid →
      rec.credential_data = none) :
    get_user_credentials db uid = [] :=
  get_user_credentials_all_corrupt_aux uid db.credentials h

/-- C9: a stored credential row whose data does not deserialize is silently
skipped — deleting it from the table does not change `get_user_credentials` —
and when all of an identity's rows are corrupted, `start_authentication`
fails `UserHasNoCredentials`. -/
theorem corrupt_credentials_skipped :
    (∀ (db : Db) (uid : Nat) (r : CredRecord) (l1 l2 : List CredRecord),
      r.credential_data = none → db.credentials = l1 ++ r :: l2 →
      get_user_credentials db uid =
        get_user_credentials { db with credentials := l1 ++ l2 } uid)
    ∧ (∀ (f : Faults) (e : Except Unit (Nat × Nat)) (sess : SessionState)
        (db : Db) (username : String) (u : User),
      f.get_user_by_username_fails = false →
      f.get_user_credentials_fails = false →
      get_user_by_username db username = some u →
      (∀ rec ∈ db.credentials, rec.user_id = u.id →
        rec.credential_data = none) →
      start_authentication f e sess db username =
        (.error .userHasNoCredentials, { sess with auth_state := none })) := by
  constructor
  · intro db uid r l1 l2 hr hdb
    unfold get_user_credentials
    simp only [hdb, List.filter_append, List.filter_cons]
    cases hru : r.user_id == uid
    · simp
    · simp [List.map_append, List.reduceOption_append, hr,
        List.reduceOption_cons_of_none]
  · intro f e sess db username u hf1 hf2 hu hcorrupt
    have hempty : get_user_credentials db u.id = [] :=
      get_user_credentials_all_corrupt db u.id hcorrupt
    simp [start_authentication, hf1, hf2, hu, hempty]

theorem corrupt_credentials_skipped_witness :
    corruptRec.credential_data = none
    ∧ dbAllCorrupt.credentials = [] ++ corruptRec :: []
    ∧ get_user_credentials dbAllCorrupt 5 =
        get_user_credentials { dbAllCorrupt with credentials := [] ++ [] } 5
    ∧ start_authentication noFaults (.ok (1, 2)) emptySession dbAllCorrupt
        "alice" =
        (.error .userHasNoCredentials,
         { emptySession with auth_state := none }) := by
  refine ⟨rfl, rfl, ?_, ?_⟩
  · exact (corrupt_credentials_skipped).1 dbAllCorrupt 5 corruptRec [] []
      rfl rfl
  · exact (corrupt_credentials_skipped).2 noFaults (.ok (1, 2)) emptySession
      dbAllCorrupt "alice" aliceUser rfl rfl (by decide) (by decide)

/-! ### C2 -/

/-- C2 (counterexample): an `AccountLink` token that is active, unused, and
expired at `now = 20` is not valid for use, yet `use_invite_code` still
consumes it and returns `true` — refuting "consume returns true only if the
token is valid-for-use at that instant". -/
theorem consume_ignores_expiry_counterexample :
    expiredLinkCode.is_account_link_code = true
    ∧ expiredLinkCode.is_active = true
    ∧ expiredLinkCode.used_at = none
    ∧ expiredLinkCode.is_valid_for_use 20 = false
    ∧ (use_invite_code 20 dbExpiredLink "LINKCODE" 9).1 = true := by
  decide

/-- C2 (amended): `use_invite_code` returns `true` exactly when some stored
token with that code is active with `used_at` unset; its SQL performs no
expiry check, so an expired AccountLink token that is active and unused is
still consumed successfully. -/
theorem consume_true_iff_active_unused (now : Nat) (db : Db) (code : String)
    (uid : Nat) :
    (use_invite_code now db code uid).1 = true ↔
      ∃ c ∈ db.invite_codes,
        c.code = code ∧ c.is_active = true ∧ c.used_at = none := by
  unfold use_invite_code useInviteCodeMatches
  simp only [decide_eq_true_iff, List.countP_pos_iff, Bool.and_eq_true,
    beq_iff_eq, Option.isNone_iff_eq_none, and_assoc]

/-! ### C3 -/

/-- C3 (counterexample): after a successful consume of a live invite token,
the post-state violates the invariant "`used_at.is_some()` implies
`active == false`": the token is used and still active. -/
theorem consume_leaves_active_counterexample :
    (use_invite_code 5 dbPlainInvite "INVITE12" 3).1 = true
    ∧ ((use_invite_code 5 dbPlainInvite "INVITE12" 3).2.invite_codes.all
        (fun c => !(c.used_at.isSome && c.is_active))) = false := by
  decide

/-- C3 (amended): a successful consume stamps `used_at`/`used_by` on a live
token while leaving `is_active` unchanged (the record update touches only the
two used fields); the stamped token is permanently invalid for use, and a
token whose `used_at` is already set is never modified by consume. -/
theorem consume_marks_used_active_unchanged (now uid : Nat) (code : String)
    (db : Db) (ic : InviteCode) (hmem : ic ∈ db.invite_codes) :
    (ic.code = code → ic.is_active = true → ic.used_at = none →
      ({ ic with used_at := some now, used_by_user_id := some uid }
          ∈ (use_invite_code now db code uid).2.invite_codes
        ∧ ∀ t, ({ ic with used_at := some now, used_by_user_id := some uid }
            : InviteCode).is_valid_for_use t = false))
    ∧ (ic.used_at.isSome = true →
        ic ∈ (use_invite_code now db code uid).2.invite_codes) := by
  constructor
  · intro hc ha hu
    have hpred : useInviteCodeMatches code ic = true := by
      simp [useInviteCodeMatches, hc, ha, hu]
    constructor
    · have hm := List.mem_map_of_mem
        (f := fun c => if useInviteCodeMatches code c then
          { c with used_at := some now, used_by_user_id := some uid } else c)
        hmem
      simpa [use_invite_code, hpred] using hm
    · intro t
      simp [InviteCode.is_valid_for_use]
  · intro hs
    have hpred : useInviteCodeMatches code ic = false := by
      simp [useInviteCodeMatches, Option.isNone_iff_eq_none]
      intro _ _
      simp [Option.isSome_iff_exists] at hs
      obtain ⟨x, hx⟩ := hs
      simp [hx]
    have hm := List.mem_map_of_mem
      (f := fun c => if useInviteCodeMatches code c then
        { c with used_at := some now, used_by_user_id := some uid } else c)
      hmem
    simpa [use_invite_code, hpred] using hm

theorem consume_marks_used_active_unchanged_witness :
    plainInvite ∈ dbPlainInvite.invite_codes
    ∧ ({ plainInvite with used_at := some 5, used_by_user_id := some 3 }
        ∈ (use_invite_code 5 dbPlainInvite "INVITE12" 3).2.invite_codes)
    ∧ ({ plainInvite with used_at := some 5, used_by_user_id := some 3 }
        : InviteCode).is_valid_for_use 99 = false := by
  have h := consume_marks_used_active_unchanged 5 3 "INVITE12" dbPlainInvite
    plainInvite (by decide)
  have h1 := h.1 rfl rfl rfl
  exact ⟨by decide, h1.1, h1.2 99⟩

/-! ### C4 -/

/-- C4: starting registration with an account-link token whose target
identity's stored username differs from the requested one fails with
`InvalidInviteCode` — no challenge is issued and the session is left
untouched — even though the token itself is valid for use. -/
theorem link_code_username_mismatch_rejected
    (req : Bool) (f : Faults) (e : Except Unit (Nat × Nat)) (now fid : Nat)
    (sess : SessionState) (db : Db) (username codeStr : String)
    (c : InviteCode) (tid : Nat) (tu : User)
    (hf1 : f.get_invite_code_fails = false)
    (hf2 : f.get_user_by_id_fails = false)
    (hc : get_invite_code db codeStr = some c)
    (hv : c.is_valid_for_use now = true)
    (hl : c.is_account_link_code = true)
    (ht : c.get_target_user_id = some tid)
    (hu : get_user_by_id db tid = some tu)
    (hne : tu.username ≠ username) :
    start_register req f e now fid sess db username (some codeStr)
      = (.error .invalidInviteCode, sess) := by
  have hbne : (tu.username != username) = true := by
    simpa [bne_iff_ne] using hne
  simp [start_register, resolveInviteCode, hf1, hf2, hc, hv, hl, ht, hu, hbne]

theorem link_code_username_mismatch_rejected_witness :
    noFaults.get_invite_code_fails = false
    ∧ get_invite_code dbBobLink "BOBLINK1" = some bobLinkCode
    ∧ bobLinkCode.is_valid_for_use 50 = true
    ∧ bobUser.username ≠ "alice"
    ∧ start_register true noFaults (.ok (11, 12)) 50 3 emptySession dbBobLink
        "alice" (some "BOBLINK1")
      = (.error .invalidInviteCode, emptySession) := by
  refine ⟨rfl, by decide, by decide, by decide, ?_⟩
  exact link_code_username_mismatch_rejected true noFaults (.ok (11, 12)) 50 3
    emptySession dbBobLink "alice" "BOBLINK1" bobLinkCode 7 bobUser rfl rfl
    (by decide) (by decide) (by decide) (by decide) (by decide) (by decide)

/-! ### C6 -/

/-- C6 (counterexample): a successful `start_register` on a session holding a
pending authentication ceremony leaves that ceremony pending — the session
then holds two pending ceremonies, refuting "the session holds exactly one
active pending ceremony" / "a previously stored pending authentication
ceremony is no longer pending". -/
theorem start_register_keeps_pending_auth_counterexample :
    (start_register false noFaults (.ok (11, 12)) 0 3 sessPendingAuth emptyDb
        "alice" none).1 = .ok 11
    ∧ (start_register false noFaults (.ok (11, 12)) 0 3 sessPendingAuth emptyDb
        "alice" none).2.reg_state.isSome = true
    ∧ (start_register false noFaults (.ok (11, 12)) 0 3 sessPendingAuth emptyDb
        "alice" none).2.auth_state = some { user_id := 5, auth_state := 7 } :=
  ⟨rfl, rfl, rfl⟩

/-- C6 (amended): the two ceremony kinds occupy separate session slots.
`start_register` never touches the pending-authentication slot and
`start_authentication` never touches the pending-registration slot; on
success each stores its new pending ceremony in its own slot, independent of
whatever pending ceremony of the same kind was there before (it overwrites
it). -/
theorem start_ceremony_touches_only_own_slot
    (req : Bool) (f g : Faults) (e e2 : Except Unit (Nat × Nat))
    (now fid : Nat) (sess : SessionState) (db : Db) (u u2 : String)
    (p : Option String) (r0 : Option RegPending) (a0 : Option AuthPending) :
    (start_register req f e now fid sess db u p).2.auth_state
        = sess.auth_state
    ∧ (start_authentication g e2 sess db u2).2.reg_state = sess.reg_state
    ∧ (∀ ch, (start_register req f e now fid sess db u p).1 = .ok ch →
        (start_register req f e now fid sess db u p).2.reg_state.isSome = true
        ∧ (start_register req f e now fid { sess with reg_state := r0 } db u
            p).2.reg_state
          = (start_register req f e now fid sess db u p).2.reg_state)
    ∧ (∀ ch, (start_authentication g e2 sess db u2).1 = .ok ch →
        (start_authentication g e2 sess db u2).2.auth_state.isSome = true
        ∧ (start_authentication g e2 { sess with auth_state := a0 } db
            u2).2.auth_state
          = (start_authentication g e2 sess db u2).2.auth_state) := by
  refine ⟨?_, ?_, ?_, ?_⟩
  · simp only [start_register]
    repeat' split
    all_goals rfl
  · simp only [start_authentication]
    repeat' split
    all_goals rfl
  · intro ch hch
    simp only [start_register] at hch ⊢
    repeat' split at hch
    all_goals simp_all
  · intro ch hch
    simp only [start_authentication] at hch ⊢
    repeat' split at hch
    all_goals simp_all

theorem start_ceremony_touches_only_own_slot_witness :
    (start_register false noFaults (.ok (11, 12)) 0 3 sessPendingAuth
        dbAliceCred "bob" none).1 = .ok 11
    ∧ (start_register false noFaults (.ok (11, 12)) 0 3 sessPendingAuth
        dbAliceCred "bob" none).2.auth_state = sessPendingAuth.auth_state
    ∧ (start_register false noFaults (.ok (11, 12)) 0 3 sessPendingAuth
        dbAliceCred "bob" none).2.reg_state.isSome = true
    ∧ (start_authentication noFaults (.ok (1, 2)) sessPendingAuth dbAliceCred
        "alice").1 = .ok 1
    ∧ (start_authentication noFaults (.ok (1, 2))
        { sessPendingAuth with auth_state := none } dbAliceCred
        "alice").2.auth_state
      = (start_authentication noFaults (.ok (1, 2)) sessPendingAuth dbAliceCred
        "alice").2.auth_state := by
  have h := start_ceremony_touches_only_own_slot false noFaults noFaults
    (.ok (11, 12)) (.ok (1, 2)) 0 3 sessPendingAuth dbAliceCred "bob" "alice"
    none none none
  exact ⟨rfl, h.1, (h.2.2.1 11 rfl).1, rfl, (h.2.2.2 1 rfl).2⟩

/-! ### C7 -/

lemma link_credential_spec (f : Faults) (now : Nat) (db : Db) (code : String)
    (pk : Passkey) (ic : InviteCode) (tid : Nat) (user : User)
    (hf1 : f.get_invite_code_fails = false)
    (hf2 : f.get_user_by_id_fails = false)
    (hf3 : f.save_credential_fails = false)
    (hc : get_invite_code db code = some ic)
    (hl : ic.is_account_link_code = true)
    (hv : ic.is_valid_for_use now = true)
    (ht : ic.get_target_user_id = some tid)
    (hu : get_user_by_id db tid = some user) :
    link_credential_to_user f now db code pk =
      if f.use_invite_code_fails then
        (.error .database, save_credential now db tid pk)
      else
        (.ok user,
         (use_invite_code now (save_credential now db tid pk) code tid).2) := by
  simp [link_credential_to_user, hf1, hf2, hf3, hc, hl, hv, ht, hu]

/-- C7 (counterexample): in the account-link finish path, with the engine
succeeding and the credential saved for the target identity, a store error
from the subsequent consume makes `finish_register` answer `DatabaseError` —
not the successful Linked outcome the claim promises — while the credential
remains saved. -/
theorem link_finish_consume_failure_counterexample :
    (finish_register faultConsume (.ok pkC7) 50 99 sessBobLink dbBobLink).1
      = .error .databaseError
    ∧ (finish_register faultConsume (.ok pkC7) 50 99 sessBobLink
        dbBobLink).2.2.credentials
      = [{ user_id := 7, credential_id := 42, credential_data := some pkC7,
           created_at := 50, last_used_at := none }] :=
  ⟨rfl, rfl⟩

/-- C7 (amended): in the account-link finish path the `bool` returned by the
consume is discarded, so a consume that merely matches no row cannot change
the Linked outcome; but a store *error* from the consume propagates (`?` in
`link_credential_to_user`) and `finish_register` answers `DatabaseError`,
with the credential already saved for the target identity. -/
theorem link_finish_consume_failure
    (f : Faults) (now fid : Nat) (sess : SessionState) (db : Db)
    (code : String) (pk : Passkey) (ic : InviteCode) (tid : Nat) (user : User)
    (pending : RegPending)
    (hp : sess.reg_state = some pending)
    (hpl : pending.is_account_linking = true)
    (hpc : pending.invite_code = some code)
    (hf1 : f.get_invite_code_fails = false)
    (hf2 : f.get_user_by_id_fails = false)
    (hf3 : f.save_credential_fails = false)
    (hc : get_invite_code db code = some ic)
    (hl : ic.is_account_link_code = true)
    (hv : ic.is_valid_for_use now = true)
    (ht : ic.get_target_user_id = some tid)
    (hu : get_user_by_id db tid = some user) :
    (f.use_invite_code_fails = false →
      finish_register f (.ok pk) now fid sess db
        = (.ok accountLinkResponse,
           { sess with reg_state := none, user_id := some user.id },
           (use_invite_code now (save_credential now db tid pk) code tid).2))
    ∧ (f.use_invite_code_fails = true →
      finish_register f (.ok pk) now fid sess db
        = (.error .databaseError, { sess with reg_state := none },
           save_credential now db tid pk)) := by
  have hspec := link_credential_spec f now db code pk ic tid user
    hf1 hf2 hf3 hc hl hv ht hu
  constructor
  · intro hflag
    rw [hflag] at hspec
    simp only [if_false, Bool.false_eq_true] at hspec
    simp [finish_register, hp, hpl, hpc, hspec]
  · intro hflag
    rw [hflag] at hspec
    simp only [if_true] at hspec
    simp [finish_register, hp, hpl, hpc, hspec]

theorem link_finish_consume_failure_witness :
    (finish_register noFaults (.ok pkC7) 50 99 sessBobLink dbBobLink).1
      = .ok accountLinkResponse
    ∧ (finish_register faultConsume (.ok pkC7) 50 99 sessBobLink dbBobLink).1
      = .error .databaseError := by
  have h1 := link_finish_consume_failure noFaults 50 99 sessBobLink dbBobLink
    "BOBLINK1" pkC7 bobLinkCode 7 bobUser
    { username := "bob", user_unique_id := 7, reg_state := 0,
      invite_code := some "BOBLINK1", is_account_linking := true }
    rfl rfl rfl rfl rfl rfl (by decide) (by decide) (by decide) (by decide)
    (by decide)
  have h2 := link_finish_consume_failure faultConsume 50 99 sessBobLink
    dbBobLink "BOBLINK1" pkC7 bobLinkCode 7 bobUser
    { username := "bob", user_unique_id := 7, reg_state := 0,
      invite_code := some "BOBLINK1", is_account_linking := true }
    rfl rfl rfl rfl rfl rfl (by decide) (by decide) (by decide) (by decide)
    (by decide)
  constructor
  · rw [h1.1 rfl]
  · rw [h2.2 rfl]

/-! ### C5 -/

lemma save_credential_users (now : Nat) (db : Db) (uid : Nat) (pk : Passkey) :
    (save_credential now db uid pk).users = db.users := by
  unfold save_credential
  split <;> rfl

lemma link_credential_to_user_users (f : Faults) (now : Nat) (db : Db)
    (code : String) (pk : Passkey) :
    ((link_credential_to_user f now db code pk).2).users = db.users := by
  simp only [link_credential_to_user]
  repeat' split
  all_goals simp [save_credential_users, use_invite_code]

lemma foldl_update_credential_users (f : Faults) (now uid : Nat)
    (ar : AuthResult) (l : List Passkey) (d : Db) :
    (l.foldl (fun d sk =>
      let sk1 := Passkey.update_credential ar sk
      if f.update_credential_fails sk1.cred_id then d
      else update_credential now d uid sk1) d).users = d.users := by
  induction l generalizing d with
  | nil => rfl
  | cons sk t ih =>
    simp only [List.foldl_cons]
    rw [ih]
    split <;> rfl

lemma finish_authentication_users (f : Faults) (e : Except Unit AuthResult)
    (now : Nat) (sess : SessionState) (db : Db) :
    ((finish_authentication f e now sess db).2.2).users = db.users := by
  simp only [finish_authentication]
  cases h : sess.auth_state with
  | none => rfl
  | some p =>
    simp only [h]
    repeat' split
    all_goals simp [foldl_update_credential_users]

lemma create_user_with_role_cases (f : Faults) (now fid : Nat) (db : Db)
    (un : String) (code : Option String) (role : UserRole) :
    create_user_with_role f now fid db un code role = (.error .database, db)
    ∨ create_user_with_role f now fid db un code role =
        (.ok { id := fid, username := un, role := role, created_at := now,
               invite_code_used := code },
         { db with users := db.users ++
            [{ id := fid, username := un, role := role, created_at := now,
               invite_code_used := code }] }) := by
  unfold create_user_with_role
  split
  · left; rfl
  · split
    · left; rfl
    · right; rfl

lemma finish_register_users_shape (e : Except Unit Passkey) (now fid : Nat)
    (sess : SessionState) (db : Db) :
    ((finish_register noFaults e now fid sess db).2.2).users = db.users
    ∨ ∃ u : User,
        u.role = (if db.users.isEmpty then UserRole.admin else UserRole.member)
        ∧ ((finish_register noFaults e now fid sess db).2.2).users
            = db.users ++ [u] := by
  simp only [finish_register]
  cases h : sess.reg_state with
  | none => left; rfl
  | some p =>
    simp only [h]
    cases e with
    | error _ => left; rfl
    | ok sk =>
      by_cases hl : p.is_account_linking = true
      · simp only [hl, if_true]
        cases hpc : p.invite_code with
        | none => left; rfl
        | some code =>
          left
          have hu := link_credential_to_user_users noFaults now db code sk
          cases hlk : link_credential_to_user noFaults now db code sk with
          | mk r d1 =>
            rw [hlk] at hu
            simp only [hlk]
            cases r <;> simpa using hu
      · simp only [hl, if_false]
        rcases create_user_with_role_cases noFaults now fid db p.username
          p.invite_code (if (if noFaults.list_users_fails = true then false
            else (list_users db).isEmpty) = true then UserRole.admin
            else UserRole.member) with hcu | hcu
        · simp only [hcu]
          left; rfl
        · simp only [hcu]
          right
          refine ⟨⟨fid, p.username,
              if (if noFaults.list_users_fails = true then false
                else (list_users db).isEmpty) = true then UserRole.admin
                else UserRole.member,
              now, p.invite_code⟩, ?_, ?_⟩
          · simp [noFaults, list_users]
          · cases hpc : p.invite_code <;>
              simp [save_credential_users, use_invite_code, noFaults]

lemma adminFirst_append (xs : List User) (u : User)
    (h : adminFirst xs = true)
    (hu : u.role = if xs.isEmpty then UserRole.admin else UserRole.member) :
    adminFirst (xs ++ [u]) = true := by
  cases xs with
  | nil =>
    simp at hu
    simp [adminFirst, hu]
  | cons x t =>
    simp [adminFirst] at h
    simp at hu
    simp [adminFirst, h.1, hu, List.all_append]
    exact h.2

lemma applyOp_adminFirst (op : AuthOp) (s : SessionState × Db)
    (h : adminFirst s.2.users = true) :
    adminFirst ((applyOp op s).2).users = true := by
  cases op with
  | startRegister req e now fid u p => simpa [applyOp] using h
  | startAuthentication e u => simpa [applyOp] using h
  | logoutOp => simpa [applyOp] using h
  | finishAuthentication e now =>
    have hu := finish_authentication_users noFaults e now s.1 s.2
    simp only [applyOp]
    rw [hu]
    exact h
  | finishRegister e now fid =>
    rcases finish_register_users_shape e now fid s.1 s.2 with hs | ⟨u, hru, hs⟩
    · simp only [applyOp]
      rw [hs]
      exact h
    · simp only [applyOp]
      rw [hs]
      exact adminFirst_append s.2.users u h hru

lemma runOps_adminFirst (ops : List AuthOp) (s : SessionState × Db)
    (h : adminFirst s.2.users = true) :
    adminFirst ((runOps ops s).2).users = true := by
  induction ops generalizing s with
  | nil => simpa [runOps] using h
  | cons op t ih =>
    simp only [runOps, List.foldl_cons]
    exact ih (applyOp op s) (applyOp_adminFirst op s h)

/-- C5: in any fault-free sequential execution of the handlers starting from
a store with no identities, the users table always has the admin-bootstrap
shape: the first identity created via the registration-finish path has role
`Admin` and every identity created afterwards has role `Member`. -/
theorem first_identity_is_admin (ops : List AuthOp) (sess : SessionState)
    (db : Db) (h : db.users = []) :
    adminFirst ((runOps ops (sess, db)).2).users = true := by
  apply runOps_adminFirst
  simp [h, adminFirst]

theorem first_identity_is_admin_witness :
    emptyDb.users = []
    ∧ adminFirst ((runOps bootstrapOps (emptySession, emptyDb)).2).users = true
    ∧ ((runOps bootstrapOps (emptySession, emptyDb)).2).users.map
        (fun u => u.role) = [UserRole.admin, UserRole.member] := by
  refine ⟨rfl, first_identity_is_admin bootstrapOps emptySession emptyDb rfl,
    ?_⟩
  rfl

end WildAuth
